import Mathlib

/-
  Verification development for the Holiday-Hand-Magic particle system.

  Shallow embedding conventions:
  * JavaScript floating-point numbers are modelled as real numbers.
  * Math.random() draws are modelled by explicit random-value streams
    passed as function arguments; a generator iterating a loop receives a
    stream indexed by (iteration, draw-position-within-the-body), and the
    snowman generator, whose body builds several feature sub-lists, receives
    a stream additionally indexed by a section number.  Draw values are
    constrained to the interval [0, 1) by hypotheses where a claim needs it.
  * Mutable Float32Array buffers of the simulation are modelled as
    functions from flat index to real value; the per-frame mutation of the
    integrator and the shape-change effect become pure state transformers.
  * Asynchronous or throwing external calls (the Gemini service) are
    modelled by enumerating their observable outcomes as an input value.
-/

open Classical

/-! ## Data model (src/types.ts) -/

/-- Point3D from src/types.ts: a 3-D position with an optional RGB color. -/
structure Point3D where
  x : ℝ
  y : ℝ
  z : ℝ
  color : Option (ℝ × ℝ × ℝ) := none

/-- ShapeDefinition from src/types.ts. -/
structure ShapeDefinition where
  id : String
  name : String
  points : List Point3D
  color : Option String := none
  description : String

/-- AppMode from src/types.ts. -/
inductive AppMode where
  | SCATTER
  | FORM
deriving DecidableEq

/-- Placeholder point used to express in-bounds JavaScript array indexing
with List.getD; all uses index inside the list, so the placeholder value is
never produced. -/
def dummyPoint : Point3D := ⟨0, 0, 0, none⟩

/-! ## Numeric helpers modelling JavaScript Math functions -/

/-- JavaScript Math.atan2(y, x): the angle of the point (x, y), in
(-pi, pi], with the IEEE branch structure. -/
noncomputable def atan2 (y x : ℝ) : ℝ :=
  if 0 < x then Real.arctan (y / x)
  else if x < 0 then
    (if 0 ≤ y then Real.arctan (y / x) + Real.pi else Real.arctan (y / x) - Real.pi)
  else
    (if 0 < y then Real.pi / 2 else if y < 0 then -(Real.pi / 2) else 0)

/-- JavaScript Math.cbrt on nonnegative inputs (all call sites feed it
values from [0, 1)). -/
noncomputable def cbrt (x : ℝ) : ℝ := x ^ ((1 : ℝ) / 3)

/-! ## src/utils/math.ts -/

/-- Clamp to [0,1]: Math.min(1, Math.max(0, v)). -/
noncomputable def clamp01 (v : ℝ) : ℝ := min 1 (max 0 v)

/-- mixColor from src/utils/math.ts: perturb each base channel by
(random - 0.5) * noise and clamp to [0,1]; d k is the k-th random draw. -/
noncomputable def mixColor (base : ℝ × ℝ × ℝ) (noise : ℝ) (d : ℕ → ℝ) : ℝ × ℝ × ℝ :=
  (clamp01 (base.1 + (d 0 - 0.5) * noise),
   clamp01 (base.2.1 + (d 1 - 0.5) * noise),
   clamp01 (base.2.2 + (d 2 - 0.5) * noise))

/-- One loop iteration of generateTreePoints; d k is the k-th random draw
of the iteration, in source order: height, angle, radial bias, green
jitter, ornament chance, ornament type. -/
noncomputable def treePoint (d : ℕ → ℝ) : Point3D :=
  let height := d 0 * 3 - 1.5
  let radius := (1.5 - height) * 0.4
  let angle := d 1 * Real.pi * 2
  let r := Real.sqrt (d 2) * radius
  let baseColor : ℝ × ℝ × ℝ := (0.1, 0.6 + d 3 * 0.2, 0.2)
  let ornamented : ℝ × ℝ × ℝ :=
    if d 4 < 0.1 ∧ r > radius * 0.8 then
      (if d 5 < 0.33 then (1, 0.1, 0.1)
       else if d 5 < 0.66 then (1, 0.8, 0.1)
       else (0.2, 0.5, 1))
    else baseColor
  let color := if height > 1.4 then ((1 : ℝ), (1 : ℝ), (0.5 : ℝ)) else ornamented
  ⟨Real.cos angle * r, height, Real.sin angle * r, some color⟩

/-- generateTreePoints from src/utils/math.ts. -/
noncomputable def generateTreePoints (count : ℕ) (r : ℕ → ℕ → ℝ) : List Point3D :=
  (List.range count).map fun i => treePoint (r i)

/-- One loop iteration of generateSpherePoints; draws in source order:
theta, phi, radial bias, then three color-noise draws. -/
noncomputable def spherePoint (radius yOffset : ℝ) (baseColor : ℝ × ℝ × ℝ)
    (d : ℕ → ℝ) : Point3D :=
  let theta := d 0 * Real.pi * 2
  let phi := Real.arccos (2 * d 1 - 1)
  let r := cbrt (d 2) * radius
  ⟨r * Real.sin phi * Real.cos theta,
   r * Real.sin phi * Real.sin theta + yOffset,
   r * Real.cos phi,
   some (mixColor baseColor 0.1 (fun k => d (3 + k)))⟩

/-- generateSpherePoints from src/utils/math.ts (defaults radius 1,
yOffset 0, baseColor white at the call sites that omit them). -/
noncomputable def generateSpherePoints (count : ℕ) (radius yOffset : ℝ)
    (baseColor : ℝ × ℝ × ℝ) (r : ℕ → ℕ → ℝ) : List Point3D :=
  (List.range count).map fun i => spherePoint radius yOffset baseColor (r i)

/-- Number of bow particles reserved by generatePresentPoints:
Math.floor(count * 0.15). -/
noncomputable def presentBowCount (count : ℕ) : ℕ := Nat.floor ((count : ℝ) * 0.15)

/-- One box-surface iteration of generatePresentPoints; draws in source
order: face selector, u, v, three jitters. -/
noncomputable def presentBoxPoint (d : ℕ → ℝ) : Point3D :=
  let size : ℝ := 1.3
  let half := size / 2
  let face := Nat.floor (d 0 * 6)
  let u := (d 1 - 0.5) * size
  let v := (d 2 - 0.5) * size
  let base : ℝ × ℝ × ℝ :=
    if face = 0 then (half, u, v)
    else if face = 1 then (-half, u, v)
    else if face = 2 then (u, half, v)
    else if face = 3 then (u, -half, v)
    else if face = 4 then (u, v, half)
    else (u, v, -half)
  let x := base.1 + (d 3 - 0.5) * 0.03
  let y := base.2.1 + (d 4 - 0.5) * 0.03
  let z := base.2.2 + (d 5 - 0.5) * 0.03
  let freq : ℝ := 6.0
  let dotted : ℝ × ℝ × ℝ :=
    if Real.sin (x * freq) * Real.sin (y * freq) * Real.sin (z * freq) > 0.5
    then (1, 1, 1) else (0.9, 0.1, 0.1)
  let ribbonWidth : ℝ := 0.25
  let isRibbon :=
    (|x| < ribbonWidth ∧ ¬(face = 0) ∧ ¬(face = 1)) ∨
    (|z| < ribbonWidth ∧ ¬(face = 4) ∧ ¬(face = 5))
  let color := if isRibbon then ((1 : ℝ), (0.84 : ℝ), (0 : ℝ)) else dotted
  ⟨x, y, z, some color⟩

/-- One bow iteration of generatePresentPoints; draws in source order:
t, t2, lift jitter. -/
noncomputable def presentBowPoint (d : ℕ → ℝ) : Point3D :=
  let half : ℝ := 1.3 / 2
  let t := d 0 * Real.pi * 2
  let t2 := d 1 * Real.pi
  let r := Real.sin (2 * t) * 0.5 * Real.sin t2
  ⟨Real.cos t * r,
   half + 0.05 + |r| * 0.5 + d 2 * 0.1,
   Real.sin t * r,
   some (1, 0.9, 0.2)⟩

/-- Box-surface part of generatePresentPoints (boxCount iterations). -/
noncomputable def presentBoxPart (count : ℕ) (r : ℕ → ℕ → ℝ) : List Point3D :=
  (List.range (count - presentBowCount count)).map fun i => presentBoxPoint (r i)

/-- Bow part of generatePresentPoints (bowCount iterations, drawing from
the stream after the box iterations). -/
noncomputable def presentBowPart (count : ℕ) (r : ℕ → ℕ → ℝ) : List Point3D :=
  (List.range (presentBowCount count)).map fun i =>
    presentBowPoint (r (count - presentBowCount count + i))

/-- generatePresentPoints from src/utils/math.ts: box surface then bow. -/
noncomputable def generatePresentPoints (count : ℕ) (r : ℕ → ℕ → ℝ) : List Point3D :=
  presentBoxPart count r ++ presentBowPart count r

/-- One loop iteration of generateStarPoints; draws: u, v. -/
noncomputable def starPoint (d : ℕ → ℝ) : Point3D :=
  let u := d 0 * Real.pi * 2
  let v := d 1 * Real.pi
  let r := 1 + 0.6 * Real.sin (5 * u) * Real.sin (5 * v)
  let rad := r * 0.8
  let color : ℝ × ℝ × ℝ := if r > 1.3 then (1, 0.8, 0) else (1, 1, 0.8)
  ⟨rad * Real.sin v * Real.cos u, rad * Real.sin v * Real.sin u,
   rad * Real.cos v * 0.4, some color⟩

/-- generateStarPoints from src/utils/math.ts. -/
noncomputable def generateStarPoints (count : ℕ) (r : ℕ → ℕ → ℝ) : List Point3D :=
  (List.range count).map fun i => starPoint (r i)

/-- One loop iteration of generateCandyCanePoints; draws: t, theta. -/
noncomputable def candyCanePoint (d : ℕ → ℝ) : Point3D :=
  let t := d 0
  let theta := d 1 * Real.pi * 2
  let radius : ℝ := 0.25
  if t < 0.7 then
    let y := (t / 0.7) * 2.5 - 1.5
    let x := Real.cos theta * radius
    let z := Real.sin theta * radius
    let isStripe := Real.sin (y * 10 + atan2 z x) > 0
    ⟨x, y, z, some (if isStripe then ((1 : ℝ), (0.1 : ℝ), (0.1 : ℝ)) else (1, 1, 1))⟩
  else
    let curveT := (t - 0.7) / 0.3
    let curveAngle := curveT * Real.pi
    let hookRadius : ℝ := 0.5
    let cx : ℝ := -0.5
    let cy : ℝ := 1.0
    let tubeX := Real.cos theta * radius
    let tubeZ := Real.sin theta * radius
    let x := cx + (hookRadius + tubeX) * Real.cos curveAngle
    let y := cy + (hookRadius + tubeX) * Real.sin curveAngle
    let z := tubeZ
    let isStripe := Real.sin (curveAngle * 10 + atan2 z tubeX) > 0
    ⟨x, y, z, some (if isStripe then ((1 : ℝ), (0.1 : ℝ), (0.1 : ℝ)) else (1, 1, 1))⟩

/-- generateCandyCanePoints from src/utils/math.ts. -/
noncomputable def generateCandyCanePoints (count : ℕ) (r : ℕ → ℕ → ℝ) : List Point3D :=
  (List.range count).map fun i => candyCanePoint (r i)

/-- Stripe predicate of the straight part of the candy cane, as a function
of the axial coordinate y and the cross-section angle theta: the source
computes sin(y * 10 + atan2(z, x)) > 0 with x = cos(theta) * 0.25 and
z = sin(theta) * 0.25. -/
noncomputable def straightStripe (y theta : ℝ) : Prop :=
  Real.sin (y * 10 + atan2 (Real.sin theta * 0.25) (Real.cos theta * 0.25)) > 0

/-- Stripe predicate of the curved part of the candy cane, as a function of
the curve angle and the cross-section angle theta: the source computes
sin(curveAngle * 10 + atan2(tubeZ, tubeX)) > 0 with tubeX = cos(theta)*0.25
and tubeZ = sin(theta)*0.25. -/
noncomputable def curvedStripe (curveAngle theta : ℝ) : Prop :=
  Real.sin (curveAngle * 10 + atan2 (Real.sin theta * 0.25) (Real.cos theta * 0.25)) > 0

/-- One loop iteration of generateWreathPoints; draws: u, v, fluff, green
jitter, berry chance. -/
noncomputable def wreathPoint (d : ℕ → ℝ) : Point3D :=
  let R : ℝ := 1.2
  let r : ℝ := 0.4
  let u := d 0 * Real.pi * 2
  let v := d 1 * Real.pi * 2
  let rFluff := r + (d 2 - 0.5) * 0.2
  let green : ℝ × ℝ × ℝ := (0.1, 0.5 + d 3 * 0.3, 0.1)
  let color := if d 4 < 0.05 then ((1 : ℝ), (0.1 : ℝ), (0.1 : ℝ)) else green
  ⟨(R + rFluff * Real.cos v) * Real.cos u,
   (R + rFluff * Real.cos v) * Real.sin u,
   rFluff * Real.sin v,
   some color⟩

/-- generateWreathPoints from src/utils/math.ts. -/
noncomputable def generateWreathPoints (count : ℕ) (r : ℕ → ℕ → ℝ) : List Point3D :=
  (List.range count).map fun i => wreathPoint (r i)

/-- One loop iteration of generateSantaHatPoints; draws in source order:
h, angle, then the band-specific draws. -/
noncomputable def santaHatPoint (d : ℕ → ℝ) : Point3D :=
  let h := d 0 * 2
  let angle := d 1 * Real.pi * 2
  if h < 0.3 then
    let r := 1.0 + (d 2 - 0.5) * 0.2
    ⟨Real.cos angle * r, h - 1.0, Real.sin angle * r, some (1, 1, 1)⟩
  else if h > 1.8 then
    ⟨0.6 + (d 3 - 0.5) * 0.3, 0.8 + (d 2 - 0.5) * 0.3, (d 4 - 0.5) * 0.3, some (1, 1, 1)⟩
  else
    let bend := ((h - 0.3) / 1.5) ^ 2 * 0.5
    let r := (1.0 - (h - 0.3) / 1.7) * 0.9
    ⟨Real.cos angle * r + bend, h - 1.0, Real.sin angle * r, some (0.9, 0.1, 0.1)⟩

/-- generateSantaHatPoints from src/utils/math.ts. -/
noncomputable def generateSantaHatPoints (count : ℕ) (r : ℕ → ℕ → ℝ) : List Point3D :=
  (List.range count).map fun i => santaHatPoint (r i)

/-! ### generateSnowmanPoints

The snowman generator draws from a three-level stream rs : section, index,
draw.  Section numbers: 0 body, 1 hat, 2 left eye, 3 right eye, 4 nose,
5 mouth, 6 arms, 7/8/9 button rows, 10 final distribution jitter. -/

/-- Number of snowman body particles: Math.floor(count * 0.65). -/
noncomputable def snowmanBodyCount (count : ℕ) : ℕ := Nat.floor ((count : ℝ) * 0.65)

/-- One body iteration of generateSnowmanPoints; draws in source order:
sphere selector (one or two draws), u, v, radial bias. -/
noncomputable def snowmanBodyPoint (d : ℕ → ℝ) : Point3D :=
  let idx : ℕ := if d 0 < 0.4 then 0 else if d 1 < 0.75 then 1 else 2
  let cy : ℝ := if idx = 0 then -1.2 else if idx = 1 then 0.2 else 1.3
  let radius : ℝ := if idx = 0 then 0.95 else if idx = 1 then 0.7 else 0.5
  let u := d 2 * Real.pi * 2
  let v := d 3 * Real.pi
  let r := radius * cbrt (d 4)
  ⟨r * Real.sin v * Real.cos u, r * Real.sin v * Real.sin u + cy, r * Real.cos v,
   some (0.95, 0.98, 1)⟩

/-- Number of hat feature points: the loop for (j = 0; j < detailsCount *
0.4; j++) runs ceil(detailsCount * 0.4) times. -/
noncomputable def snowmanHatCount (detailsCount : ℕ) : ℕ :=
  Nat.ceil ((detailsCount : ℝ) * 0.4)

/-- One hat feature point; draws: angle, height, radial bias. -/
noncomputable def snowmanHatPoint (d : ℕ → ℝ) : Point3D :=
  let hatBaseY : ℝ := 1.65
  let hatHeight : ℝ := 0.5
  let hatRadius : ℝ := 0.35
  let angle := d 0 * Real.pi * 2
  let h := d 1 * hatHeight
  let r := Real.sqrt (d 2) * hatRadius
  ⟨Real.cos angle * r, hatBaseY + h, Real.sin angle * r, some (0.4, 0.4, 0.45)⟩

/-- One eye feature group: the coal center plus five jittered density
points; d k j is the j-th draw of the k-th density point. -/
noncomputable def snowmanEyeGroup (ex : ℝ) (d : ℕ → ℕ → ℝ) : List Point3D :=
  ⟨ex, 1.45, 0.42, some (0.1, 0.1, 0.1)⟩ ::
    ((List.range 5).map fun k =>
      ⟨ex + (d k 0 - 0.5) * 0.05, 1.45 + (d k 1 - 0.5) * 0.05, 0.42,
       some (0.1, 0.1, 0.1)⟩)

/-- One carrot-nose ring point at discretization step k of 40; one angle
draw. -/
noncomputable def snowmanNosePoint (k : ℕ) (d : ℕ → ℝ) : Point3D :=
  let t := (k : ℝ) / 40
  let r := (1 - t) * 0.08
  let angle := d 0 * Real.pi * 2
  ⟨Real.cos angle * r, 1.35, 0.45 + t * 0.4, some (1, 0.5, 0)⟩

/-- One mouth group at smile-arc step k of 5: the coal dot plus four
jittered density points (two draws each). -/
noncomputable def snowmanMouthGroup (k : ℕ) (d : ℕ → ℝ) : List Point3D :=
  let angle := Real.pi + ((k : ℝ) / 4) * Real.pi
  let mx := Real.cos angle * 0.15
  let my := 1.25 + Real.sin angle * 0.05
  ⟨mx, my, 0.45, some (0.1, 0.1, 0.1)⟩ ::
    ((List.range 4).map fun j =>
      ⟨mx + (d (2 * j) - 0.5) * 0.02, my + (d (2 * j + 1) - 0.5) * 0.02, 0.45,
       some (0.1, 0.1, 0.1)⟩)

/-- One arm iteration at step k of 60: the left stick point then the right
stick point (two jitter draws each). -/
noncomputable def snowmanArmPair (k : ℕ) (d : ℕ → ℝ) : List Point3D :=
  let t := (k : ℝ) / 60
  [⟨-0.6 - t * 0.6 + (d 0 - 0.5) * 0.05, 0.4 + t * 0.4, (d 1 - 0.5) * 0.05,
    some (0.55, 0.35, 0.15)⟩,
   ⟨0.6 + t * 0.6 + (d 2 - 0.5) * 0.05, 0.4 + t * 0.4, (d 3 - 0.5) * 0.05,
    some (0.55, 0.35, 0.15)⟩]

/-- One button row at torso offset by: ten jittered coal points (one draw
each). -/
noncomputable def snowmanButtonRow (by_ : ℝ) (d : ℕ → ℕ → ℝ) : List Point3D :=
  (List.range 10).map fun j =>
    ⟨(d j 0 - 0.5) * 0.05, by_ + 0.2, 0.7, some (0.1, 0.1, 0.1)⟩

/-- The precomputed feature list of generateSnowmanPoints, in source push
order: hat, eyes, nose, mouth, arms, buttons. -/
noncomputable def snowmanFeatures (detailsCount : ℕ) (rs : ℕ → ℕ → ℕ → ℝ) :
    List Point3D :=
  ((List.range (snowmanHatCount detailsCount)).map fun j => snowmanHatPoint (rs 1 j)) ++
  (snowmanEyeGroup (-0.15) (rs 2) ++ snowmanEyeGroup 0.15 (rs 3)) ++
  ((List.range 40).map fun k => snowmanNosePoint k (rs 4 k)) ++
  ((List.range 5).map fun k => snowmanMouthGroup k (rs 5 k)).flatten ++
  ((List.range 60).map fun k => snowmanArmPair k (rs 6 k)).flatten ++
  (snowmanButtonRow 0.3 (rs 7) ++ snowmanButtonRow 0.0 (rs 8) ++
   snowmanButtonRow (-0.3) (rs 9))

/-- Per-point jitter applied when distributing features into the output
array; three draws. -/
noncomputable def snowmanJitter (f : Point3D) (d : ℕ → ℝ) : Point3D :=
  ⟨f.x + (d 0 - 0.5) * 0.02, f.y + (d 1 - 0.5) * 0.02, f.z + (d 2 - 0.5) * 0.02,
   f.color⟩

/-- Body part of generateSnowmanPoints. -/
noncomputable def snowmanBodyPart (count : ℕ) (rs : ℕ → ℕ → ℕ → ℝ) : List Point3D :=
  (List.range (snowmanBodyCount count)).map fun i => snowmanBodyPoint (rs 0 i)

/-- Detail part of generateSnowmanPoints: the remaining quota cycles
through the feature list (features[i % features.length]); with an empty
feature list the JavaScript index is NaN, the lookup yields undefined and
the guard if (f) skips the push. -/
noncomputable def snowmanDetailPart (count : ℕ) (rs : ℕ → ℕ → ℕ → ℝ) : List Point3D :=
  let detailsCount := count - snowmanBodyCount count
  let features := snowmanFeatures detailsCount rs
  if features.length = 0 then []
  else (List.range detailsCount).map fun i =>
    snowmanJitter (features.getD (i % features.length) dummyPoint) (rs 10 i)

/-- generateSnowmanPoints from src/utils/math.ts: body spheres then
distributed features. -/
noncomputable def generateSnowmanPoints (count : ℕ) (rs : ℕ → ℕ → ℕ → ℝ) :
    List Point3D :=
  snowmanBodyPart count rs ++ snowmanDetailPart count rs

/-! ## The integrator (src/components/MagicParticles.tsx, src/unnamed/part_001) -/

/-- A 3-D vector (x, (y, z)). -/
abbrev Vec3 : Type := ℝ × ℝ × ℝ

/-- The per-frame effective-regime test of useFrame:
const isScatter = mode === AppMode.SCATTER or motionIntensity > 0.25. -/
def isScatter (mode : AppMode) (motionIntensity : ℝ) : Prop :=
  mode = AppMode.SCATTER ∨ motionIntensity > 0.25

/-- The regime the integrator actually runs for the frame: Scatter when
isScatter holds, Form otherwise. -/
noncomputable def effectiveMode (mode : AppMode) (motionIntensity : ℝ) : AppMode :=
  if isScatter mode motionIntensity then AppMode.SCATTER else AppMode.FORM

/-- One axis of the form-regime update: velocity += ((target + noise) -
position) * 4 * delta; velocity *= 0.85; position += velocity.  Returns
(new position, new velocity). -/
noncomputable def axisForm (δ noise target pos vel : ℝ) : ℝ × ℝ :=
  let v := (vel + ((target + noise) - pos) * 4 * δ) * 0.85
  (pos + v, v)

/-- The form-regime per-particle frame update from useFrame, with the
shimmer noise amplitude as a parameter; the source fixes noiseAmp = 0.02.
State is (position, velocity). -/
noncomputable def formStep (noiseAmp time δ : ℝ) (target : Vec3) (s : Vec3 × Vec3) :
    Vec3 × Vec3 :=
  let nx := Real.sin (time * 3 + s.1.2.1) * noiseAmp
  let ny := Real.cos (time * 2 + s.1.2.2) * noiseAmp
  let nz := Real.sin (time * 4 + s.1.1) * noiseAmp
  let ax := axisForm δ nx target.1 s.1.1 s.2.1
  let ay := axisForm δ ny target.2.1 s.1.2.1 s.2.2.1
  let az := axisForm δ nz target.2.2 s.1.2.2 s.2.2.2
  ((ax.1, ay.1, az.1), (ax.2, ay.2, az.2))

/-- The scatter-regime (vortex) per-particle frame update from useFrame.
State is (position, velocity). -/
noncomputable def scatterStep (time δ : ℝ) (s : Vec3 × Vec3) : Vec3 × Vec3 :=
  let x := s.1.1
  let y := s.1.2.1
  let z := s.1.2.2
  let distXZ := Real.sqrt (x * x + z * z)
  let angle := atan2 z x
  let swirlSpeed : ℝ := 5.0
  let tanX := -Real.sin angle
  let tanZ := Real.cos angle
  let v1x := s.2.1 + tanX * swirlSpeed * δ
  let v1z := s.2.2.2 + tanZ * swirlSpeed * δ
  let targetRadius := 3.5 + Real.sin (time * 2 + y) * 0.5
  let radialForce := (targetRadius - distXZ) * 2.0
  let v2x := v1x + Real.cos angle * radialForce * δ
  let v2z := v1z + Real.sin angle * radialForce * δ
  let targetY := Real.sin (time * 1.5 + distXZ) * 1.5
  let v1y := s.2.2.1 + (targetY - y) * 1.0 * δ
  let vx := v2x * 0.92
  let vy := v1y * 0.92
  let vz := v2z * 0.92
  ((x + vx, y + vy, z + vz), (vx, vy, vz))

/-- The per-particle frame update of useFrame: scatter physics when
isScatter holds, otherwise form physics with the fixed noise amplitude
0.02. -/
noncomputable def frameStep (mode : AppMode) (motionIntensity time δ : ℝ)
    (target : Vec3) (s : Vec3 × Vec3) : Vec3 × Vec3 :=
  if isScatter mode motionIntensity then scatterStep time δ s
  else formStep 0.02 time δ target s

/-- Iterated form-regime ticks: run n frames of the form update against a
static target, with the clock reading ts k on the k-th frame. -/
noncomputable def formRun (noiseAmp δ : ℝ) (ts : ℕ → ℝ) (target : Vec3)
    (s0 : Vec3 × Vec3) : ℕ → Vec3 × Vec3
  | 0 => s0
  | n + 1 => formStep noiseAmp (ts n) δ target (formRun noiseAmp δ ts target s0 n)

/-- Iterated one-axis form ticks with zero noise, from initial position p0
and initial velocity v0. -/
noncomputable def axisRun (δ target p0 v0 : ℝ) : ℕ → ℝ × ℝ
  | 0 => (p0, v0)
  | n + 1 =>
    axisForm δ 0 target (axisRun δ target p0 v0 n).1 (axisRun δ target p0 v0 n).2

/-- Euclidean distance between two 3-D points. -/
noncomputable def dist3 (p q : Vec3) : ℝ :=
  Real.sqrt ((p.1 - q.1) ^ 2 + (p.2.1 - q.2.1) ^ 2 + (p.2.2 - q.2.2) ^ 2)

/-! ### The shape-change effect (useEffect of MagicParticles)

The four Float32Array buffers are modelled as functions from flat index to
value; the effect rewrites targetPositions[i*3 .. i*3+2] and
colors[i*3 .. i*3+2] for every particle index i < count. -/

/-- The four parallel per-particle buffers of the simulation. -/
structure SimState where
  positions : ℕ → ℝ
  velocities : ℕ → ℝ
  targetPositions : ℕ → ℝ
  colors : ℕ → ℝ

/-- Write a 3-component value at stride-3 slot i of a flat buffer. -/
def write3 (a : ℕ → ℝ) (i : ℕ) (v : ℝ × ℝ × ℝ) : ℕ → ℝ := fun n =>
  if n = i * 3 then v.1
  else if n = i * 3 + 1 then v.2.1
  else if n = i * 3 + 2 then v.2.2
  else a n

/-- Target position and color computed for particle i by the shape-change
effect: with a non-empty point list, source point i % length (coordinates,
and its color when present, the fallback color otherwise); with an empty
list, the origin and the fallback color. -/
noncomputable def targetForIndex (targetPoints : List Point3D)
    (defaultColor : ℝ × ℝ × ℝ) (i : ℕ) : (ℝ × ℝ × ℝ) × (ℝ × ℝ × ℝ) :=
  if 0 < targetPoints.length then
    let p := targetPoints.getD (i % targetPoints.length) dummyPoint
    ((p.x, p.y, p.z), p.color.getD defaultColor)
  else ((0, 0, 0), defaultColor)

/-- The loop of the shape-change effect, processing particle indices
0 .. n-1 in ascending order. -/
noncomputable def shapeChangeLoop (targetPoints : List Point3D)
    (defaultColor : ℝ × ℝ × ℝ) : ℕ → SimState → SimState
  | 0, s => s
  | n + 1, s =>
    let s1 := shapeChangeLoop targetPoints defaultColor n s
    let tv := targetForIndex targetPoints defaultColor n
    { s1 with
      targetPositions := write3 s1.targetPositions n tv.1
      colors := write3 s1.colors n tv.2 }

/-- The shape-change effect of MagicParticles: rewrite target positions
and colors for all count particles from the new target point list. -/
noncomputable def applyShapeChange (count : ℕ) (targetPoints : List Point3D)
    (defaultColor : ℝ × ℝ × ℝ) (s : SimState) : SimState :=
  shapeChangeLoop targetPoints defaultColor count s

/-! ## The app shell (src/App.tsx, src/unnamed/part_000) -/

/-- The fixed particle budget of the app. -/
def PARTICLE_COUNT : ℕ := 6000

/-- DEFAULT_SHAPES from the app shell: the ordered default catalog, each
entry generated at the fixed particle budget.  The stream argument r feeds
each generator its random draws (entry index, then the generator-specific
stream shape). -/
noncomputable def DEFAULT_SHAPES (r : ℕ → ℕ → ℕ → ℕ → ℝ) : List ShapeDefinition :=
  [⟨"tree", "Festive Tree", generateTreePoints PARTICLE_COUNT (r 0 0), none,
    "Point Up or use buttons to change"⟩,
   ⟨"present", "Magic Present", generatePresentPoints PARTICLE_COUNT (r 1 0), none,
    "Open Hand: Scatter | Fist: Form"⟩,
   ⟨"wreath", "Holiday Wreath", generateWreathPoints PARTICLE_COUNT (r 2 0), none,
    "A circle of joy"⟩,
   ⟨"cane", "Candy Cane", generateCandyCanePoints PARTICLE_COUNT (r 3 0), none,
    "Sweet winter treats"⟩,
   ⟨"santa_hat", "Santa Hat", generateSantaHatPoints PARTICLE_COUNT (r 4 0), none,
    "Jolly accessories"⟩,
   ⟨"snowman", "Snowman", generateSnowmanPoints PARTICLE_COUNT (r 5), none,
    "Do you want to build a snowman?"⟩,
   ⟨"star", "North Star", generateStarPoints PARTICLE_COUNT (r 6 0), none,
    "Guiding light"⟩]

/-- The app state relevant to shape selection: the catalog index, the
custom override slot (name and points) and the status line. -/
structure AppState where
  currentShapeIdx : ℕ
  customShapePoints : Option (List Point3D)
  customShapeName : Option String
  aiStatus : String

/-- handleNextShape: clear the override slot and advance the catalog index
with wraparound ((prev + 1) % DEFAULT_SHAPES.length). -/
def handleNextShape (catalog : List ShapeDefinition) (s : AppState) : AppState :=
  { s with
    customShapePoints := none
    customShapeName := none
    currentShapeIdx := (s.currentShapeIdx + 1) % catalog.length }

/-- handlePrevShape: clear the override slot and step the catalog index
back with wraparound; the source computes (prev - 1 + length) % length over
JavaScript numbers, written here as (prev + length - 1) % length, equal for
every nonnegative prev. -/
def handlePrevShape (catalog : List ShapeDefinition) (s : AppState) : AppState :=
  { s with
    customShapePoints := none
    customShapeName := none
    currentShapeIdx := (s.currentShapeIdx + catalog.length - 1) % catalog.length }

/-- The success branch of handleGenerateShape: set the custom override
name and points. -/
def setCustomShape (name : String) (pts : List Point3D) (s : AppState) : AppState :=
  { s with
    customShapeName := some name
    customShapePoints := some pts }

/-- Observable outcome of the awaited generateGeminiShape call inside
handleGenerateShape: either it threw, or it resolved with a point list. -/
inductive GeminiCallResult where
  | thrown
  | resolved (pts : List Point3D)

/-- handleGenerateShape from the app shell: with a blank prompt do
nothing; otherwise, when the call resolves with a non-empty list, install
the custom shape and report success; when it resolves empty, keep state
and report a fizzle; when it throws, keep state and report a connection
error. -/
def handleGenerateShape (promptInput : String) (res : GeminiCallResult)
    (s : AppState) : AppState :=
  if promptInput.trim = "" then s
  else
    match res with
    | .resolved pts =>
      if 0 < pts.length then
        { setCustomShape promptInput pts s with aiStatus := "Magic summoned!" }
      else { s with aiStatus := "The spell fizzled." }
    | .thrown => { s with aiStatus := "Connection error." }

/-- activeShape from the app shell: the custom override when both name and
points are set, otherwise the default-catalog entry at the current index. -/
def activeShape (catalog : List ShapeDefinition) (s : AppState) : ShapeDefinition :=
  match s.customShapePoints, s.customShapeName with
  | some pts, some nm =>
    ⟨"custom", nm, pts, some "#00ccff", "AI Generated Magic"⟩
  | _, _ => catalog.getD s.currentShapeIdx ⟨"", "", [], none, ""⟩

/-! ## The Gemini service (src/services/geminiService.ts) -/

/-- Observable outcome of the model call plus JSON parse inside
generateGeminiShape: the call or the parse threw, or the parsed value is
not an array, or it is a flat numeric array. -/
inductive GeminiResponse where
  | thrown
  | nonArray
  | arr (xs : List ℝ)

/-- The triplet-assembly loop of generateGeminiShape: walk the flat array
with stride 3 and push a point for every complete (x, y, z) triplet,
dropping a trailing incomplete triplet. -/
def tripletPoints : List ℝ → List Point3D
  | a :: b :: c :: rest => ⟨a, b, c, none⟩ :: tripletPoints rest
  | _ => []

/-- generateGeminiShape from src/services/geminiService.ts: with no API
key, a thrown error or a non-array response the promise resolves to the
empty list (it never rejects: every failure path is caught); otherwise the
complete triplets of the flat array, truncated to count points. -/
def generateGeminiShape (hasKey : Bool) (resp : GeminiResponse) (count : ℕ) :
    List Point3D :=
  if !hasKey then []
  else
    match resp with
    | .thrown => []
    | .nonArray => []
    | .arr xs => (tripletPoints xs).take count

/-! ## Helper lemmas -/

lemma presentBowCount_le (count : ℕ) : presentBowCount count ≤ count := by
  have h : ((count : ℝ) * 0.15) ≤ (count : ℝ) := by
    nlinarith [Nat.cast_nonneg (α := ℝ) count]
  have h2 : presentBowCount count ≤ Nat.floor ((count : ℝ)) :=
    Nat.floor_le_floor h
  simpa [Nat.floor_natCast] using h2

lemma snowmanBodyCount_le (count : ℕ) : snowmanBodyCount count ≤ count := by
  have h : ((count : ℝ) * 0.65) ≤ (count : ℝ) := by
    nlinarith [Nat.cast_nonneg (α := ℝ) count]
  have h2 : snowmanBodyCount count ≤ Nat.floor ((count : ℝ)) :=
    Nat.floor_le_floor h
  simpa [Nat.floor_natCast] using h2

lemma snowmanEyeGroup_length (ex : ℝ) (d : ℕ → ℕ → ℝ) :
    (snowmanEyeGroup ex d).length = 6 := by
  simp [snowmanEyeGroup]

lemma snowmanMouthGroup_length (k : ℕ) (d : ℕ → ℝ) :
    (snowmanMouthGroup k d).length = 5 := by
  simp [snowmanMouthGroup]

lemma snowmanArmPair_length (k : ℕ) (d : ℕ → ℝ) :
    (snowmanArmPair k d).length = 2 := by
  simp [snowmanArmPair]

lemma snowmanButtonRow_length (by_ : ℝ) (d : ℕ → ℕ → ℝ) :
    (snowmanButtonRow by_ d).length = 10 := by
  simp [snowmanButtonRow]

lemma length_flatten_const {α : Type} (n c : ℕ) (g : ℕ → List α)
    (h : ∀ k, (g k).length = c) :
    (((List.range n).map g).flatten).length = n * c := by
  induction n with
  | zero => simp
  | succ m ih =>
    rw [List.range_succ, List.map_append, List.flatten_append, List.length_append, ih]
    simp [h m, Nat.succ_mul]

lemma snowmanFeatures_length (d : ℕ) (rs : ℕ → ℕ → ℕ → ℝ) :
    (snowmanFeatures d rs).length = snowmanHatCount d + 227 := by
  have hm := length_flatten_const 5 5 (fun k => snowmanMouthGroup k (rs 5 k))
    (fun k => snowmanMouthGroup_length k (rs 5 k))
  have ha := length_flatten_const 60 2 (fun k => snowmanArmPair k (rs 6 k))
    (fun k => snowmanArmPair_length k (rs 6 k))
  simp only [snowmanFeatures, List.length_append, List.length_map,
    List.length_range, hm, ha, snowmanEyeGroup_length, snowmanButtonRow_length]

lemma snowmanFeatures_ne_nil (d : ℕ) (rs : ℕ → ℕ → ℕ → ℝ) :
    snowmanFeatures d rs ≠ [] := by
  have h := snowmanFeatures_length d rs
  exact List.length_pos.mp (by omega)

lemma snowmanDetailPart_length (count : ℕ) (rs : ℕ → ℕ → ℕ → ℝ) :
    (snowmanDetailPart count rs).length = count - snowmanBodyCount count := by
  have h := snowmanFeatures_length (count - snowmanBodyCount count) rs
  unfold snowmanDetailPart
  rw [if_neg (by omega)]
  simp

/-! ## Claim C1 -/

/-- C1: for every positive requested count and all random draws, each of
the eight shape generators returns exactly count points; the present
generator splits the request into floor(count * 0.15) bow points and
count - floor(count * 0.15) box points, and the snowman generator into
floor(count * 0.65) body points and count - floor(count * 0.65) detail
points, the detail loop never skipping an index because the feature list
is non-empty. -/
theorem C1_generator_counts (count : ℕ) (hpos : 0 < count)
    (r1 r2 r3 r4 r5 r6 r7 : ℕ → ℕ → ℝ) (radius yOffset : ℝ)
    (baseColor : ℝ × ℝ × ℝ) (rs : ℕ → ℕ → ℕ → ℝ) :
    (generateTreePoints count r1).length = count ∧
    (generateSpherePoints count radius yOffset baseColor r2).length = count ∧
    (generateStarPoints count r3).length = count ∧
    (generateCandyCanePoints count r4).length = count ∧
    (generateWreathPoints count r5).length = count ∧
    (generateSantaHatPoints count r6).length = count ∧
    (presentBowPart count r7).length = Nat.floor ((count : ℝ) * 0.15) ∧
    (presentBoxPart count r7).length = count - Nat.floor ((count : ℝ) * 0.15) ∧
    (generatePresentPoints count r7).length = count ∧
    (snowmanBodyPart count rs).length = Nat.floor ((count : ℝ) * 0.65) ∧
    snowmanFeatures (count - snowmanBodyCount count) rs ≠ [] ∧
    (snowmanDetailPart count rs).length = count - Nat.floor ((count : ℝ) * 0.65) ∧
    (generateSnowmanPoints count rs).length = count := by
  have hbow := presentBowCount_le count
  have hbody := snowmanBodyCount_le count
  refine ⟨by simp [generateTreePoints], by simp [generateSpherePoints],
    by simp [generateStarPoints], by simp [generateCandyCanePoints],
    by simp [generateWreathPoints], by simp [generateSantaHatPoints],
    by simp [presentBowPart, presentBowCount],
    by simp [presentBoxPart, presentBowCount], ?_,
    by simp [snowmanBodyPart, snowmanBodyCount],
    snowmanFeatures_ne_nil _ rs, ?_, ?_⟩
  · simp only [generatePresentPoints, List.length_append, presentBowPart,
      presentBoxPart, List.length_map, List.length_range]
    unfold presentBowCount at hbow ⊢
    omega
  · rw [snowmanDetailPart_length]
    unfold snowmanBodyCount
    rfl
  · simp only [generateSnowmanPoints, List.length_append,
      snowmanDetailPart_length, snowmanBodyPart, List.length_map,
      List.length_range]
    unfold snowmanBodyCount at hbody ⊢
    omega

/-- Witness for C1 at count 7 with constant random streams. -/
theorem C1_generator_counts_witness :
    0 < 7 ∧
    (generateTreePoints 7 fun _ _ => 0).length = 7 ∧
    (generatePresentPoints 7 fun _ _ => 0).length = 7 ∧
    (presentBowPart 7 fun _ _ => 0).length = Nat.floor ((7 : ℝ) * 0.15) ∧
    (generateSnowmanPoints 7 fun _ _ _ => 0).length = 7 := by
  have h := C1_generator_counts 7 (by decide) (fun _ _ => 0) (fun _ _ => 0)
    (fun _ _ => 0) (fun _ _ => 0) (fun _ _ => 0) (fun _ _ => 0) (fun _ _ => 0)
    0 0 (0, 0, 0) (fun _ _ _ => 0)
  exact ⟨by decide, h.1, h.2.2.2.2.2.2.2.2.1, h.2.2.2.2.2.2.1, h.2.2.2.2.2.2.2.2.2.2.2.2⟩

/-! ## Claim C2 -/

/-- C2: for every requested mode and motion intensity, the integrator
runs the scatter regime exactly when the requested mode is Scatter or the
motion intensity exceeds 0.25; in particular a Form request with motion
intensity at most 0.25 runs the form regime. -/
theorem C2_effective_mode (mode : AppMode) (mi : ℝ) :
    (effectiveMode mode mi = AppMode.SCATTER ↔
      (mode = AppMode.SCATTER ∨ mi > 0.25)) ∧
    (mode = AppMode.FORM → mi ≤ 0.25 → effectiveMode mode mi = AppMode.FORM) := by
  constructor
  · unfold effectiveMode isScatter
    by_cases h : mode = AppMode.SCATTER ∨ mi > 0.25
    · simp [h]
    · simp [h]
  · intro hm hmi
    unfold effectiveMode isScatter
    rw [if_neg]
    rintro (h | h)
    · rw [hm] at h
      exact AppMode.noConfusion h
    · linarith

/-- Witness for C2: a Form request at motion intensity 0 runs Form. -/
theorem C2_effective_mode_witness : effectiveMode AppMode.FORM 0 = AppMode.FORM :=
  (C2_effective_mode AppMode.FORM 0).2 rfl (by norm_num)

/-! ## Claim C4 -/

/-- C4: the shape-change effect leaves the position and velocity buffers
of every particle untouched; only the target-position and color buffers
are rewritten. -/
theorem C4_shape_change_preserves_motion (count : ℕ) (pts : List Point3D)
    (defaultColor : ℝ × ℝ × ℝ) (s : SimState) :
    (applyShapeChange count pts defaultColor s).positions = s.positions ∧
    (applyShapeChange count pts defaultColor s).velocities = s.velocities := by
  unfold applyShapeChange
  induction count with
  | zero => exact ⟨rfl, rfl⟩
  | succ n ih => simpa [shapeChangeLoop] using ih

/-! ## Claim C10 -/

/-- The triplet loop keeps exactly one point per complete triplet of the
flat array. -/
theorem tripletPoints_length : ∀ xs : List ℝ,
    (tripletPoints xs).length = xs.length / 3
  | [] => by simp [tripletPoints]
  | [a] => by simp [tripletPoints]
  | [a, b] => by simp [tripletPoints]
  | a :: b :: c :: rest => by
    simp only [tripletPoints, List.length_cons, tripletPoints_length rest]
    omega

/-- C10: generateGeminiShape never rejects; a missing API key, a thrown
error or a non-array response each resolve to the empty list, the result
never exceeds count points, and an array response yields exactly the
complete (x, y, z) triplets of the flat array truncated to count, a
trailing incomplete triplet being dropped. -/
theorem C10_gemini_shape_resolves (hasKey : Bool) (resp : GeminiResponse)
    (count : ℕ) :
    (generateGeminiShape hasKey resp count).length ≤ count ∧
    (hasKey = false → generateGeminiShape hasKey resp count = []) ∧
    (resp = GeminiResponse.thrown → generateGeminiShape hasKey resp count = []) ∧
    (resp = GeminiResponse.nonArray → generateGeminiShape hasKey resp count = []) ∧
    (∀ xs, resp = GeminiResponse.arr xs → hasKey = true →
      generateGeminiShape hasKey resp count = (tripletPoints xs).take count ∧
      (tripletPoints xs).length = xs.length / 3) := by
  refine ⟨?_, ?_, ?_, ?_, ?_⟩
  · cases hasKey with
    | false => simp [generateGeminiShape]
    | true =>
      cases resp with
      | thrown => simp [generateGeminiShape]
      | nonArray => simp [generateGeminiShape]
      | arr xs =>
        simp only [generateGeminiShape, Bool.not_true, Bool.false_eq_true,
          if_false, List.length_take]
        omega
  · intro h
    subst h
    simp [generateGeminiShape]
  · intro h
    subst h
    cases hasKey <;> simp [generateGeminiShape]
  · intro h
    subst h
    cases hasKey <;> simp [generateGeminiShape]
  · intro xs h hk
    subst h
    subst hk
    exact ⟨by simp [generateGeminiShape], tripletPoints_length xs⟩

/-- Witness for C10 on a seven-element flat array (two complete triplets
and one dangling coordinate) truncated to two points. -/
theorem C10_gemini_shape_resolves_witness :
    (generateGeminiShape true (GeminiResponse.arr [1, 2, 3, 4, 5, 6, 7]) 2).length ≤ 2 ∧
    generateGeminiShape true (GeminiResponse.arr [1, 2, 3, 4, 5, 6, 7]) 2 =
      (tripletPoints [1, 2, 3, 4, 5, 6, 7]).take 2 ∧
    (tripletPoints [(1 : ℝ), 2, 3, 4, 5, 6, 7]).length = 7 / 3 := by
  have h := C10_gemini_shape_resolves true (GeminiResponse.arr [1, 2, 3, 4, 5, 6, 7]) 2
  have h2 := h.2.2.2.2 [1, 2, 3, 4, 5, 6, 7] rfl rfl
  exact ⟨h.1, h2.1, by simpa using h2.2⟩

/-! ## Claim C7 -/

lemma activeShape_congr (catalog : List ShapeDefinition) (s1 s2 : AppState)
    (hp : s1.customShapePoints = s2.customShapePoints)
    (hn : s1.customShapeName = s2.customShapeName)
    (hi : s1.currentShapeIdx = s2.currentShapeIdx) :
    activeShape catalog s1 = activeShape catalog s2 := by
  unfold activeShape
  rw [hp, hn, hi]

/-- Case analysis of handleGenerateShape: it leaves the state untouched,
or only sets failure status text, or installs a non-empty custom shape
with success status. -/
lemma handleGenerateShape_cases (promptInput : String) (res : GeminiCallResult)
    (s : AppState) :
    handleGenerateShape promptInput res s = s ∨
    (handleGenerateShape promptInput res s =
        { s with aiStatus := "The spell fizzled." } ∧
      res = GeminiCallResult.resolved []) ∨
    (handleGenerateShape promptInput res s =
        { s with aiStatus := "Connection error." } ∧
      res = GeminiCallResult.thrown) ∨
    (∃ pts, res = GeminiCallResult.resolved pts ∧ 0 < pts.length ∧
      handleGenerateShape promptInput res s =
        { setCustomShape promptInput pts s with aiStatus := "Magic summoned!" }) := by
  by_cases hb : promptInput.trim = ""
  · exact Or.inl (by simp [handleGenerateShape, hb])
  · cases res with
    | thrown =>
      exact Or.inr (Or.inr (Or.inl ⟨by simp [handleGenerateShape, hb], rfl⟩))
    | resolved pts =>
      by_cases hlen : 0 < pts.length
      · exact Or.inr (Or.inr (Or.inr
          ⟨pts, rfl, hlen, by simp [handleGenerateShape, hb, hlen]⟩))
      · have hnil : pts = [] := by
          cases pts with
          | nil => rfl
          | cons a l => exact absurd (by simp) hlen
        subst hnil
        exact Or.inr (Or.inl ⟨by simp [handleGenerateShape, hb, hlen], rfl⟩)

/-- C7: when the external shape request throws or resolves with an empty
point list, the custom override slot and the catalog index are unchanged
and the previously active shape is retained; the override slot is written
only by a non-empty resolved list; and a failure surfaces at most
recoverable status text (the handler either leaves the state untouched,
when the prompt is blank and no request is issued, or reports the fizzle
or the connection error). -/
theorem C7_failure_retains_shape (promptInput : String)
    (catalog : List ShapeDefinition) (s : AppState) :
    (∀ res, res = GeminiCallResult.thrown ∨ res = GeminiCallResult.resolved [] →
      (handleGenerateShape promptInput res s).customShapePoints = s.customShapePoints ∧
      (handleGenerateShape promptInput res s).customShapeName = s.customShapeName ∧
      (handleGenerateShape promptInput res s).currentShapeIdx = s.currentShapeIdx ∧
      activeShape catalog (handleGenerateShape promptInput res s) =
        activeShape catalog s) ∧
    (∀ res,
      ((handleGenerateShape promptInput res s).customShapePoints ≠ s.customShapePoints ∨
       (handleGenerateShape promptInput res s).customShapeName ≠ s.customShapeName) →
      ∃ pts, res = GeminiCallResult.resolved pts ∧ 0 < pts.length ∧
        (handleGenerateShape promptInput res s).customShapePoints = some pts ∧
        (handleGenerateShape promptInput res s).customShapeName = some promptInput) ∧
    (handleGenerateShape promptInput GeminiCallResult.thrown s = s ∨
      (handleGenerateShape promptInput GeminiCallResult.thrown s).aiStatus =
        "Connection error.") ∧
    (handleGenerateShape promptInput (GeminiCallResult.resolved []) s = s ∨
      (handleGenerateShape promptInput (GeminiCallResult.resolved []) s).aiStatus =
        "The spell fizzled.") := by
  refine ⟨?_, ?_, ?_, ?_⟩
  · intro res hres
    rcases handleGenerateShape_cases promptInput res s with h | ⟨h, _⟩ | ⟨h, _⟩ |
        ⟨pts, hpts, hlen, _⟩
    · rw [h]
      exact ⟨rfl, rfl, rfl, rfl⟩
    · rw [h]
      exact ⟨rfl, rfl, rfl, activeShape_congr _ _ _ rfl rfl rfl⟩
    · rw [h]
      exact ⟨rfl, rfl, rfl, activeShape_congr _ _ _ rfl rfl rfl⟩
    · rcases hres with rfl | rfl
      · exact absurd hpts (by intro hc; exact GeminiCallResult.noConfusion hc)
      · have : pts = [] := by
          have := hpts
          injection this with h2
          exact h2.symm
        subst this
        exact absurd hlen (by simp)
  · intro res hne
    rcases handleGenerateShape_cases promptInput res s with h | ⟨h, _⟩ | ⟨h, _⟩ |
        ⟨pts, hpts, hlen, h⟩
    · rw [h] at hne
      rcases hne with h2 | h2 <;> exact absurd rfl h2
    · rw [h] at hne
      rcases hne with h2 | h2 <;> exact absurd rfl h2
    · rw [h] at hne
      rcases hne with h2 | h2 <;> exact absurd rfl h2
    · exact ⟨pts, hpts, hlen, by rw [h]; exact rfl, by rw [h]; exact rfl⟩
  · rcases handleGenerateShape_cases promptInput GeminiCallResult.thrown s with
      h | ⟨h, hc⟩ | ⟨h, _⟩ | ⟨pts, hpts, _, _⟩
    · exact Or.inl h
    · exact absurd hc (by intro hc2; exact GeminiCallResult.noConfusion hc2)
    · exact Or.inr (by rw [h])
    · exact absurd hpts (by intro hc; exact GeminiCallResult.noConfusion hc)
  · rcases handleGenerateShape_cases promptInput (GeminiCallResult.resolved []) s with
      h | ⟨h, _⟩ | ⟨h, hc⟩ | ⟨pts, hpts, hlen, _⟩
    · exact Or.inl h
    · exact Or.inr (by rw [h])
    · exact absurd hc (by intro hc2; exact GeminiCallResult.noConfusion hc2)
    · have : pts = [] := by
        injection hpts with h2
        exact h2.symm
      subst this
      exact absurd hlen (by simp)

/-- Witness for C7: a thrown request against a concrete initial state
keeps the override slot unset and only status text may change. -/
theorem C7_failure_retains_shape_witness :
    (handleGenerateShape "Sleigh" GeminiCallResult.thrown
      ⟨0, none, none, ""⟩).customShapePoints = none ∧
    (handleGenerateShape "Sleigh" GeminiCallResult.thrown ⟨0, none, none, ""⟩ =
        ⟨0, none, none, ""⟩ ∨
      (handleGenerateShape "Sleigh" GeminiCallResult.thrown
        ⟨0, none, none, ""⟩).aiStatus = "Connection error.") := by
  have h := C7_failure_retains_shape "Sleigh" [] ⟨0, none, none, ""⟩
  exact ⟨(h.1 GeminiCallResult.thrown (Or.inl rfl)).1, h.2.2.1⟩

/-! ## Claim C8 -/

/-- C8 counterexample: handleNextShape is not idempotent: from catalog
index 0 one call moves to index 1 but a repeated identical call moves to
index 2, so calling it twice differs from calling it once. -/
theorem C8_next_not_idempotent_counterexample :
    handleNextShape (DEFAULT_SHAPES fun _ _ _ _ => 0)
        (handleNextShape (DEFAULT_SHAPES fun _ _ _ _ => 0) ⟨0, none, none, ""⟩) ≠
      handleNextShape (DEFAULT_SHAPES fun _ _ _ _ => 0) ⟨0, none, none, ""⟩ := by
  intro h
  have h2 := congrArg AppState.currentShapeIdx h
  simp only [handleNextShape, DEFAULT_SHAPES, List.length_cons,
    List.length_nil] at h2
  omega

lemma next_prev_mod (L i : ℕ) (h : i < L) : ((i + 1) % L + L - 1) % L = i := by
  rcases Nat.lt_or_ge (i + 1) L with h1 | h1
  · rw [Nat.mod_eq_of_lt h1]
    have h2 : i + 1 + L - 1 = i + L := by omega
    rw [h2, Nat.add_mod_right, Nat.mod_eq_of_lt h]
  · have h2 : i + 1 = L := by omega
    rw [h2, Nat.mod_self]
    have h3 : 0 + L - 1 = i := by omega
    rw [h3, Nat.mod_eq_of_lt h]

lemma prev_next_mod (L i : ℕ) (h : i < L) : ((i + L - 1) % L + 1) % L = i := by
  rcases Nat.eq_zero_or_pos i with rfl | h1
  · have h2 : 0 + L - 1 = L - 1 := by omega
    have h4 : (L - 1) % L = L - 1 := Nat.mod_eq_of_lt (by omega)
    rw [h2, h4]
    have h3 : L - 1 + 1 = L := by omega
    rw [h3, Nat.mod_self]
  · have h2 : i + L - 1 = (i - 1) + L := by omega
    have h4 : ((i - 1) + L) % L = i - 1 := by
      rw [Nat.add_mod_right, Nat.mod_eq_of_lt (by omega)]
    rw [h2, h4]
    have h3 : i - 1 + 1 = i := by omega
    rw [h3, Nat.mod_eq_of_lt h]

/-- C8 amended: setCustom is idempotent, but next and previous are not:
a repeated identical call advances the cycle one more step instead of
leaving the state fixed; the two navigation commands are instead mutually
inverse on the catalog index: next followed by previous, and previous
followed by next, restore the original in-range index (with the override
slot cleared), while next twice lands on index + 2 modulo the catalog
length. -/
theorem C8_selection_commands (catalog : List ShapeDefinition) (s : AppState)
    (name : String) (pts : List Point3D)
    (h : s.currentShapeIdx < catalog.length) :
    setCustomShape name pts (setCustomShape name pts s) =
      setCustomShape name pts s ∧
    (handlePrevShape catalog (handleNextShape catalog s)).currentShapeIdx =
      s.currentShapeIdx ∧
    (handleNextShape catalog (handlePrevShape catalog s)).currentShapeIdx =
      s.currentShapeIdx ∧
    (handleNextShape catalog (handleNextShape catalog s)).currentShapeIdx =
      (s.currentShapeIdx + 2) % catalog.length := by
  refine ⟨rfl, ?_, ?_, ?_⟩
  · simp only [handlePrevShape, handleNextShape]
    exact next_prev_mod _ _ h
  · simp only [handlePrevShape, handleNextShape]
    exact prev_next_mod _ _ h
  · simp only [handleNextShape]
    rw [Nat.mod_add_mod]

/-- Witness for C8 at catalog index 2 of the seven default shapes. -/
theorem C8_selection_commands_witness :
    setCustomShape "Bell" [] (setCustomShape "Bell" [] ⟨2, none, none, ""⟩) =
      setCustomShape "Bell" [] ⟨2, none, none, ""⟩ ∧
    (handlePrevShape (DEFAULT_SHAPES fun _ _ _ _ => 0)
      (handleNextShape (DEFAULT_SHAPES fun _ _ _ _ => 0)
        ⟨2, none, none, ""⟩)).currentShapeIdx = 2 := by
  have h := C8_selection_commands (DEFAULT_SHAPES fun _ _ _ _ => 0)
    ⟨2, none, none, ""⟩ "Bell" [] (by simp [DEFAULT_SHAPES])
  exact ⟨h.1, h.2.1⟩

/-! ## Claim C5 -/

lemma write3_read0 (a : ℕ → ℝ) (i : ℕ) (v : ℝ × ℝ × ℝ) :
    write3 a i v (i * 3) = v.1 := by
  unfold write3
  rw [if_pos rfl]

lemma write3_read1 (a : ℕ → ℝ) (i : ℕ) (v : ℝ × ℝ × ℝ) :
    write3 a i v (i * 3 + 1) = v.2.1 := by
  unfold write3
  rw [if_neg (by omega), if_pos rfl]

lemma write3_read2 (a : ℕ → ℝ) (i : ℕ) (v : ℝ × ℝ × ℝ) :
    write3 a i v (i * 3 + 2) = v.2.2 := by
  unfold write3
  rw [if_neg (by omega), if_neg (by omega), if_pos rfl]

lemma write3_read_other (a : ℕ → ℝ) (i : ℕ) (v : ℝ × ℝ × ℝ) (n : ℕ)
    (h0 : n ≠ i * 3) (h1 : n ≠ i * 3 + 1) (h2 : n ≠ i * 3 + 2) :
    write3 a i v n = a n := by
  unfold write3
  rw [if_neg h0, if_neg h1, if_neg h2]

lemma shapeChangeLoop_read (tp : List Point3D) (dc : ℝ × ℝ × ℝ) :
    ∀ n (s : SimState) i, i < n →
    ((shapeChangeLoop tp dc n s).targetPositions (i * 3) =
        (targetForIndex tp dc i).1.1 ∧
      (shapeChangeLoop tp dc n s).targetPositions (i * 3 + 1) =
        (targetForIndex tp dc i).1.2.1 ∧
      (shapeChangeLoop tp dc n s).targetPositions (i * 3 + 2) =
        (targetForIndex tp dc i).1.2.2) ∧
    ((shapeChangeLoop tp dc n s).colors (i * 3) =
        (targetForIndex tp dc i).2.1 ∧
      (shapeChangeLoop tp dc n s).colors (i * 3 + 1) =
        (targetForIndex tp dc i).2.2.1 ∧
      (shapeChangeLoop tp dc n s).colors (i * 3 + 2) =
        (targetForIndex tp dc i).2.2.2) := by
  intro n
  induction n with
  | zero => intro s i hi; omega
  | succ m ih =>
    intro s i hi
    rcases Nat.lt_or_ge i m with him | him
    · have hne : i ≠ m := by omega
      have h := ih s i him
      refine ⟨⟨?_, ?_, ?_⟩, ?_, ?_, ?_⟩ <;>
        · show write3 _ m _ _ = _
          rw [write3_read_other _ _ _ _ (by omega) (by omega) (by omega)]
          first
          | exact h.1.1 | exact h.1.2.1 | exact h.1.2.2
          | exact h.2.1 | exact h.2.2.1 | exact h.2.2.2
    · have heq : i = m := by omega
      subst heq
      exact ⟨⟨write3_read0 _ _ _, write3_read1 _ _ _, write3_read2 _ _ _⟩,
        write3_read0 _ _ _, write3_read1 _ _ _, write3_read2 _ _ _⟩

/-- C5: on a shape change, every particle index below the particle count
is rewritten: with a non-empty active point list, particle i receives the
coordinates of source point i mod length and that point's color (the
fallback color when the point carries none); with an empty point list it
receives the coordinate origin and the fallback color; no index is skipped
for any relation between particle count and point count. -/
theorem C5_target_rewrite_formula (count : ℕ) (pts : List Point3D)
    (dc : ℝ × ℝ × ℝ) (s : SimState) (i : ℕ) (hi : i < count) :
    ((applyShapeChange count pts dc s).targetPositions (i * 3),
     (applyShapeChange count pts dc s).targetPositions (i * 3 + 1),
     (applyShapeChange count pts dc s).targetPositions (i * 3 + 2)) =
      (if 0 < pts.length then
        ((pts.getD (i % pts.length) dummyPoint).x,
         (pts.getD (i % pts.length) dummyPoint).y,
         (pts.getD (i % pts.length) dummyPoint).z)
      else (0, 0, 0)) ∧
    ((applyShapeChange count pts dc s).colors (i * 3),
     (applyShapeChange count pts dc s).colors (i * 3 + 1),
     (applyShapeChange count pts dc s).colors (i * 3 + 2)) =
      (if 0 < pts.length then
        (pts.getD (i % pts.length) dummyPoint).color.getD dc
      else dc) := by
  have h := shapeChangeLoop_read pts dc count s i hi
  unfold applyShapeChange
  by_cases hlen : 0 < pts.length
  · have ht : targetForIndex pts dc i =
        (((pts.getD (i % pts.length) dummyPoint).x,
          (pts.getD (i % pts.length) dummyPoint).y,
          (pts.getD (i % pts.length) dummyPoint).z),
         (pts.getD (i % pts.length) dummyPoint).color.getD dc) := by
      unfold targetForIndex
      rw [if_pos hlen]
    rw [ht] at h
    simp only [if_pos hlen]
    constructor
    · rw [h.1.1, h.1.2.1, h.1.2.2]
    · rw [h.2.1, h.2.2.1, h.2.2.2]
  · have ht : targetForIndex pts dc i = ((0, 0, 0), dc) := by
      unfold targetForIndex
      rw [if_neg hlen]
    rw [ht] at h
    simp only [if_neg hlen]
    constructor
    · rw [h.1.1, h.1.2.1, h.1.2.2]
    · rw [h.2.1, h.2.2.1, h.2.2.2]

/-- Witness for C5: two particles mapped onto a one-point shape; particle
index 1 wraps around to source point 0 and receives its coordinates and
color. -/
theorem C5_target_rewrite_formula_witness :
    (applyShapeChange 2 [⟨5, 6, 7, some (0.3, 0.4, 0.5)⟩] (1, 1, 1)
        ⟨fun _ => 0, fun _ => 0, fun _ => 0, fun _ => 0⟩).targetPositions (1 * 3) = 5 ∧
    (applyShapeChange 2 [⟨5, 6, 7, some (0.3, 0.4, 0.5)⟩] (1, 1, 1)
        ⟨fun _ => 0, fun _ => 0, fun _ => 0, fun _ => 0⟩).colors (1 * 3) = 0.3 := by
  have h := C5_target_rewrite_formula 2 [⟨5, 6, 7, some (0.3, 0.4, 0.5)⟩] (1, 1, 1)
    ⟨fun _ => 0, fun _ => 0, fun _ => 0, fun _ => 0⟩ 1 (by decide)
  have h1 := congrArg Prod.fst h.1
  have h2 := congrArg Prod.fst h.2
  simpa using And.intro h1 h2

/-! ## Claim C9 -/

/-- C9 counterexample: with a nonzero vertical offset the sphere helper
produces points whose norm from the coordinate origin exceeds the radius:
at count 1, radius 1, yOffset 2 and all draws one half, the single
generated point has distance at least 2 from the origin. -/
theorem C9_origin_norm_counterexample :
    ¬ (∀ p ∈ generateSpherePoints 1 1 2 (1, 1, 1) fun _ _ => 1 / 2,
        Real.sqrt (p.x ^ 2 + p.y ^ 2 + p.z ^ 2) ≤ 1) := by
  intro h
  have hp : spherePoint 1 2 (1, 1, 1) ((fun _ _ => (1 / 2 : ℝ)) 0) ∈
      generateSpherePoints 1 1 2 (1, 1, 1) fun _ _ => 1 / 2 :=
    List.mem_map.mpr ⟨0, List.mem_range.mpr (by norm_num), rfl⟩
  have h2 := h _ hp
  have hy : (spherePoint 1 2 (1, 1, 1) ((fun _ _ => (1 / 2 : ℝ)) 0)).y = 2 := by
    simp only [spherePoint]
    have e1 : (1 / 2 : ℝ) * Real.pi * 2 = Real.pi := by ring
    have e2 : (2 : ℝ) * (1 / 2) - 1 = 0 := by norm_num
    rw [e1, e2, Real.arccos_zero, Real.sin_pi]
    ring
  have h4 : (4 : ℝ) ≤
      (spherePoint 1 2 (1, 1, 1) ((fun _ _ => (1 / 2 : ℝ)) 0)).x ^ 2 +
      (spherePoint 1 2 (1, 1, 1) ((fun _ _ => (1 / 2 : ℝ)) 0)).y ^ 2 +
      (spherePoint 1 2 (1, 1, 1) ((fun _ _ => (1 / 2 : ℝ)) 0)).z ^ 2 := by
    rw [hy]
    nlinarith [sq_nonneg (spherePoint 1 2 (1, 1, 1) ((fun _ _ => (1 / 2 : ℝ)) 0)).x,
      sq_nonneg (spherePoint 1 2 (1, 1, 1) ((fun _ _ => (1 / 2 : ℝ)) 0)).z]
  have h5 := Real.sqrt_le_sqrt h4
  have h6 : Real.sqrt 4 = 2 := by
    rw [show (4 : ℝ) = 2 ^ 2 by norm_num, Real.sqrt_sq (by norm_num)]
  rw [h6] at h5
  linarith

/-- C9 amended: every point of the sphere helper lies within radius of the
sphere center (0, yOffset, 0) (so the origin-norm bound of the claim holds
exactly when yOffset = 0), and every tree point has its height coordinate
in [-1.5, 1.5]. -/
theorem C9_geometric_bounds :
    (∀ (count : ℕ) (radius yOffset : ℝ) (baseColor : ℝ × ℝ × ℝ)
      (r : ℕ → ℕ → ℝ), 0 ≤ radius → (∀ i k, 0 ≤ r i k ∧ r i k < 1) →
      ∀ p ∈ generateSpherePoints count radius yOffset baseColor r,
        Real.sqrt (p.x ^ 2 + (p.y - yOffset) ^ 2 + p.z ^ 2) ≤ radius) ∧
    (∀ (count : ℕ) (r : ℕ → ℕ → ℝ), (∀ i k, 0 ≤ r i k ∧ r i k < 1) →
      ∀ p ∈ generateTreePoints count r, -1.5 ≤ p.y ∧ p.y ≤ 1.5) := by
  constructor
  · intro count radius yOffset baseColor r hrad hr p hp
    obtain ⟨i, _, rfl⟩ := List.mem_map.mp hp
    set d := r i
    have hcb0 : 0 ≤ cbrt (d 2) := Real.rpow_nonneg (hr i 2).1 _
    have hcb1 : cbrt (d 2) ≤ 1 :=
      Real.rpow_le_one (hr i 2).1 (le_of_lt (hr i 2).2) (by norm_num)
    have hrr0 : 0 ≤ cbrt (d 2) * radius := mul_nonneg hcb0 hrad
    have hθ := Real.sin_sq_add_cos_sq (d 0 * Real.pi * 2)
    have hφ := Real.sin_sq_add_cos_sq (Real.arccos (2 * d 1 - 1))
    have hinner : (spherePoint radius yOffset baseColor d).x ^ 2 +
        ((spherePoint radius yOffset baseColor d).y - yOffset) ^ 2 +
        (spherePoint radius yOffset baseColor d).z ^ 2 =
        (cbrt (d 2) * radius) ^ 2 := by
      simp only [spherePoint]
      linear_combination
        ((cbrt (d 2) * radius) ^ 2 * Real.sin (Real.arccos (2 * d 1 - 1)) ^ 2) * hθ +
          (cbrt (d 2) * radius) ^ 2 * hφ
    rw [hinner, Real.sqrt_sq hrr0]
    calc cbrt (d 2) * radius ≤ 1 * radius := by
          exact mul_le_mul_of_nonneg_right hcb1 hrad
      _ = radius := one_mul radius
  · intro count r hr p hp
    obtain ⟨i, _, rfl⟩ := List.mem_map.mp hp
    have h0 := (hr i 0).1
    have h1 := (hr i 0).2
    constructor
    · show (-1.5 : ℝ) ≤ (treePoint (r i)).y
      simp only [treePoint]
      linarith
    · show (treePoint (r i)).y ≤ 1.5
      simp only [treePoint]
      linarith

/-- Witness for C9 at count 1, radius 1, yOffset 2 and constant draws one
half: the point lies within distance 1 of the center (0, 2, 0), and the
single tree point has height in range. -/
theorem C9_geometric_bounds_witness :
    (∀ p ∈ generateSpherePoints 1 1 2 (1, 1, 1) fun _ _ => 1 / 2,
      Real.sqrt (p.x ^ 2 + (p.y - 2) ^ 2 + p.z ^ 2) ≤ 1) ∧
    (∀ p ∈ generateTreePoints 1 fun _ _ => 1 / 2, -1.5 ≤ p.y ∧ p.y ≤ 1.5) := by
  constructor
  · exact (C9_geometric_bounds.1 1 1 2 (1, 1, 1) (fun _ _ => 1 / 2)
      (by norm_num) fun i k => by norm_num)
  · exact (C9_geometric_bounds.2 1 (fun _ _ => 1 / 2) fun i k => by norm_num)

/-! ## Claim C6 -/

lemma atan2_quarter_zero : atan2 (0.25 : ℝ) 0 = Real.pi / 2 := by
  unfold atan2
  rw [if_neg (by norm_num), if_neg (by norm_num), if_pos (by norm_num)]

/-- At cross-section angle pi/2 the straight-part stripe predicate at the
axial top y = 1 is false: its phase is 10 + pi/2 and sin(10 + pi/2) =
cos 10 < 0. -/
lemma straightStripe_top_pi_div_two_false : ¬ straightStripe 1 (Real.pi / 2) := by
  unfold straightStripe
  rw [Real.sin_pi_div_two, Real.cos_pi_div_two]
  have e1 : (1 : ℝ) * 0.25 = 0.25 := by norm_num
  have e2 : (0 : ℝ) * 0.25 = 0 := by norm_num
  rw [e1, e2, atan2_quarter_zero]
  have e3 : (1 : ℝ) * 10 + Real.pi / 2 = 10 + Real.pi / 2 := by ring
  rw [e3, Real.sin_add_pi_div_two]
  have h1 : Real.cos (10 : ℝ) = Real.cos ((10 : ℝ) - 2 * Real.pi) :=
    (Real.cos_sub_two_pi 10).symm
  have h2 : Real.pi / 2 < (10 : ℝ) - 2 * Real.pi := by
    linarith [Real.pi_lt_four]
  have h3 : (10 : ℝ) - 2 * Real.pi < Real.pi + Real.pi / 2 := by
    linarith [Real.pi_gt_three]
  have h4 : Real.cos ((10 : ℝ) - 2 * Real.pi) < 0 :=
    Real.cos_neg_of_pi_div_two_lt_of_lt h2 h3
  rw [h1]
  linarith

/-- At cross-section angle pi/2 the curved-part stripe predicate at the
start of the hook (curveAngle 0) is true: its phase is pi/2 and
sin(pi/2) = 1 > 0. -/
lemma curvedStripe_start_pi_div_two_true : curvedStripe 0 (Real.pi / 2) := by
  unfold curvedStripe
  rw [Real.sin_pi_div_two, Real.cos_pi_div_two]
  have e1 : (1 : ℝ) * 0.25 = 0.25 := by norm_num
  have e2 : (0 : ℝ) * 0.25 = 0 := by norm_num
  rw [e1, e2, atan2_quarter_zero]
  have e3 : (0 : ℝ) * 10 + Real.pi / 2 = Real.pi / 2 := by ring
  rw [e3, Real.sin_pi_div_two]
  norm_num

/-- C6 counterexample: the stripe value at the top end of the straight
part (axial coordinate y = 1) differs from the stripe value at the start
of the curved part (curveAngle = 0) at cross-section angle pi/2: the
former is false, the latter true. -/
theorem C6_stripe_transition_counterexample :
    ¬ (straightStripe 1 (Real.pi / 2) ↔ curvedStripe 0 (Real.pi / 2)) := by
  intro h
  exact straightStripe_top_pi_div_two_false (h.mpr curvedStripe_start_pi_div_two_true)

/-- C6 amended: both parts of the candy cane apply the same stripe
formula, sin(axial-position * 10 + angle-in-cross-section) > 0, but the
axial coordinate feeding it resets at the straight-to-curved transition:
the straight part ends at axial phase 10 * 1.0 while the curved part
restarts at 10 * 0, so the stripe at the top of the straight part does not
in general equal the stripe at the start of the curved part; at
cross-section angle pi/2 the two ends disagree. -/
theorem C6_stripe_transition (θ : ℝ) :
    (straightStripe 1 θ ↔
      Real.sin (10 + atan2 (Real.sin θ * 0.25) (Real.cos θ * 0.25)) > 0) ∧
    (curvedStripe 0 θ ↔
      Real.sin (0 + atan2 (Real.sin θ * 0.25) (Real.cos θ * 0.25)) > 0) ∧
    ¬ (straightStripe 1 (Real.pi / 2) ↔ curvedStripe 0 (Real.pi / 2)) := by
  refine ⟨?_, ?_, ?_⟩
  · unfold straightStripe
    rw [show (1 : ℝ) * 10 = 10 by norm_num]
  · unfold curvedStripe
    rw [show (0 : ℝ) * 10 = 0 by norm_num]
  · intro h
    exact straightStripe_top_pi_div_two_false (h.mpr curvedStripe_start_pi_div_two_true)

/-! ## Claim C3 -/

/-- With noise amplitude zero the form frame update acts on each axis
independently through axisForm with zero noise. -/
lemma formStep_zero_noise (time δ : ℝ) (target : Vec3) (s : Vec3 × Vec3) :
    formStep 0 time δ target s =
      (((axisForm δ 0 target.1 s.1.1 s.2.1).1,
        (axisForm δ 0 target.2.1 s.1.2.1 s.2.2.1).1,
        (axisForm δ 0 target.2.2 s.1.2.2 s.2.2.2).1),
       ((axisForm δ 0 target.1 s.1.1 s.2.1).2,
        (axisForm δ 0 target.2.1 s.1.2.1 s.2.2.1).2,
        (axisForm δ 0 target.2.2 s.1.2.2 s.2.2.2).2)) := by
  simp [formStep, mul_zero]

/-- With zero noise and zero initial velocity the iterated form run is the
product of three independent one-axis runs. -/
lemma formRun_axis (δ : ℝ) (ts : ℕ → ℝ) (target p0 : Vec3) : ∀ n,
    formRun 0 δ ts target (p0, (0, 0, 0)) n =
      (((axisRun δ target.1 p0.1 0 n).1,
        (axisRun δ target.2.1 p0.2.1 0 n).1,
        (axisRun δ target.2.2 p0.2.2 0 n).1),
       ((axisRun δ target.1 p0.1 0 n).2,
        (axisRun δ target.2.1 p0.2.1 0 n).2,
        (axisRun δ target.2.2 p0.2.2 0 n).2)) := by
  intro n
  induction n with
  | zero => rfl
  | succ m ih =>
    show formStep 0 (ts m) δ target (formRun 0 δ ts target (p0, (0, 0, 0)) m) = _
    rw [ih, formStep_zero_noise]
    rfl

/-- Explicit form of one axis update. -/
lemma axisForm_eval (δ noise target pos vel : ℝ) :
    axisForm δ noise target pos vel =
      (pos + (vel + ((target + noise) - pos) * 4 * δ) * 0.85,
       (vel + ((target + noise) - pos) * 4 * δ) * 0.85) := rfl

/-- A particle resting exactly on the target stays there. -/
lemma axisRun_fixed (δ T : ℝ) : ∀ n, axisRun δ T T 0 n = (T, 0) := by
  intro n
  induction n with
  | zero => rfl
  | succ m ih =>
    show axisForm δ 0 T (axisRun δ T T 0 m).1 (axisRun δ T T 0 m).2 = _
    rw [ih, axisForm_eval]
    simp only [Prod.mk.injEq]
    constructor <;> ring

/-- The one-axis dynamics is odd: negating target, start and velocity
negates the whole run. -/
lemma axisRun_neg (δ T p0 v0 : ℝ) : ∀ n,
    axisRun δ (-T) (-p0) (-v0) n =
      (-(axisRun δ T p0 v0 n).1, -(axisRun δ T p0 v0 n).2) := by
  intro n
  induction n with
  | zero => rfl
  | succ m ih =>
    show axisForm δ 0 (-T) (axisRun δ (-T) (-p0) (-v0) m).1
        (axisRun δ (-T) (-p0) (-v0) m).2 = _
    rw [ih]
    show _ = (-(axisForm δ 0 T (axisRun δ T p0 v0 m).1 (axisRun δ T p0 v0 m).2).1,
      -(axisForm δ 0 T (axisRun δ T p0 v0 m).1 (axisRun δ T p0 v0 m).2).2)
    rw [axisForm_eval, axisForm_eval]
    simp only [Prod.mk.injEq]
    constructor <;> ring

/-- From rest on the nonnegative side: while the displacement stays
nonnegative, the velocity stays nonpositive and the position is
non-increasing. -/
lemma axisRun_nonneg_mono (δ T p0 : ℝ) (hδ : 0 ≤ δ) (n : ℕ)
    (hno : ∀ k ≤ n, 0 ≤ (axisRun δ T p0 0 k).1 - T) :
    (∀ k ≤ n, (axisRun δ T p0 0 k).2 ≤ 0) ∧
    (∀ k < n, (axisRun δ T p0 0 (k + 1)).1 ≤ (axisRun δ T p0 0 k).1) := by
  have hv : ∀ k, k ≤ n → (axisRun δ T p0 0 k).2 ≤ 0 := by
    intro k
    induction k with
    | zero => intro _; exact le_of_eq rfl
    | succ m ihm =>
      intro hm
      have hvm := ihm (by omega)
      have hDm := hno m (by omega)
      show (axisForm δ 0 T (axisRun δ T p0 0 m).1 (axisRun δ T p0 0 m).2).2 ≤ 0
      unfold axisForm
      have hprod : 0 ≤ δ * ((axisRun δ T p0 0 m).1 - T) :=
        mul_nonneg hδ hDm
      have he : ((axisRun δ T p0 0 m).2 +
          ((T + 0) - (axisRun δ T p0 0 m).1) * 4 * δ) * 0.85 =
          0.85 * (axisRun δ T p0 0 m).2 -
          3.4 * (δ * ((axisRun δ T p0 0 m).1 - T)) := by ring
      rw [he]
      linarith
  refine ⟨hv, ?_⟩
  intro k hk
  have hv1 := hv (k + 1) (by omega)
  have heq : (axisRun δ T p0 0 (k + 1)).1 =
      (axisRun δ T p0 0 k).1 + (axisRun δ T p0 0 (k + 1)).2 := by
    show (axisForm δ 0 T (axisRun δ T p0 0 k).1 (axisRun δ T p0 0 k).2).1 =
      (axisRun δ T p0 0 k).1 +
        (axisForm δ 0 T (axisRun δ T p0 0 k).1 (axisRun δ T p0 0 k).2).2
    unfold axisForm
    ring_nf
  rw [heq]
  linarith

/-- From rest, while the per-axis displacement keeps the sign it started
with, the per-axis distance to the target never increases. -/
lemma axisRun_abs_mono (δ T p0 : ℝ) (hδ : 0 ≤ δ) (n : ℕ)
    (hno : ∀ k ≤ n, 0 ≤ ((axisRun δ T p0 0 k).1 - T) * (p0 - T)) :
    ∀ k < n, |(axisRun δ T p0 0 (k + 1)).1 - T| ≤ |(axisRun δ T p0 0 k).1 - T| := by
  have hneg : ∀ j, axisRun δ (-T) (-p0) 0 j =
      (-(axisRun δ T p0 0 j).1, -(axisRun δ T p0 0 j).2) := by
    intro j
    have h := axisRun_neg δ T p0 0 j
    rwa [neg_zero] at h
  rcases lt_trichotomy (p0 - T) 0 with hsign | hsign | hsign
  · -- negative side: reduce to the nonnegative side of the negated run
    intro k hk
    have hno2 : ∀ j ≤ n, 0 ≤ (axisRun δ (-T) (-p0) 0 j).1 - (-T) := by
      intro j hj
      rw [hneg j]
      have h1 := hno j hj
      show 0 ≤ -(axisRun δ T p0 0 j).1 - -T
      nlinarith
    have hm := (axisRun_nonneg_mono δ (-T) (-p0) hδ n hno2).2 k hk
    rw [hneg, hneg] at hm
    have hD1 := hno2 (k + 1) (by omega)
    have hD0 := hno2 k (by omega)
    rw [hneg] at hD1
    rw [hneg] at hD0
    have e1 : |(axisRun δ T p0 0 (k + 1)).1 - T| =
        -((axisRun δ T p0 0 (k + 1)).1 - T) := by
      apply abs_of_nonpos
      have : 0 ≤ -(axisRun δ T p0 0 (k + 1)).1 - -T := hD1
      linarith
    have e0 : |(axisRun δ T p0 0 k).1 - T| = -((axisRun δ T p0 0 k).1 - T) := by
      apply abs_of_nonpos
      have : 0 ≤ -(axisRun δ T p0 0 k).1 - -T := hD0
      linarith
    rw [e1, e0]
    have : -(axisRun δ T p0 0 (k + 1)).1 ≤ -(axisRun δ T p0 0 k).1 := hm
    linarith
  · -- exactly on the target: the run is constant
    intro k hk
    have hp : p0 = T := by linarith
    subst hp
    rw [axisRun_fixed, axisRun_fixed]
  · -- positive side
    intro k hk
    have hno2 : ∀ j ≤ n, 0 ≤ (axisRun δ T p0 0 j).1 - T := by
      intro j hj
      have h1 := hno j hj
      nlinarith
    have hm := (axisRun_nonneg_mono δ T p0 hδ n hno2).2 k hk
    rw [abs_of_nonneg (hno2 (k + 1) (by omega)), abs_of_nonneg (hno2 k (by omega))]
    linarith

lemma axisRun_succ (δ T p0 v0 : ℝ) (n : ℕ) :
    axisRun δ T p0 v0 (n + 1) =
      axisForm δ 0 T (axisRun δ T p0 v0 n).1 (axisRun δ T p0 v0 n).2 := rfl

lemma c3axis1 : axisRun (1/60 : ℝ) 0 1 0 1 = ((283/300), (-(17/300))) := by
  show axisRun (1/60 : ℝ) 0 1 0 (0 + 1) = _
  rw [axisRun_succ]
  rw [show axisRun (1/60 : ℝ) 0 1 0 0 = (1, 0) from rfl]
  rw [axisForm_eval]
  norm_num [Prod.mk.injEq]

lemma c3axis2 : axisRun (1/60 : ℝ) 0 1 0 2 = ((37877/45000), (-(4573/45000))) := by
  show axisRun (1/60 : ℝ) 0 1 0 (1 + 1) = _
  rw [axisRun_succ]
  rw [c3axis1]
  rw [axisForm_eval]
  norm_num [Prod.mk.injEq]

lemma c3axis3 : axisRun (1/60 : ℝ) 0 1 0 3 = ((2388269/3375000), (-(226253/1687500))) := by
  show axisRun (1/60 : ℝ) 0 1 0 (2 + 1) = _
  rw [axisRun_succ]
  rw [c3axis2]
  rw [axisForm_eval]
  norm_num [Prod.mk.injEq]

lemma c3axis4 : axisRun (1/60 : ℝ) 0 1 0 4 = ((560491097/1012500000), (-(155989603/1012500000))) := by
  show axisRun (1/60 : ℝ) 0 1 0 (3 + 1) = _
  rw [axisRun_succ]
  rw [c3axis3]
  rw [axisForm_eval]
  norm_num [Prod.mk.injEq]

lemma c3axis5 : axisRun (1/60 : ℝ) 0 1 0 5 = ((59420815843/151875000000), (-(24652848707/151875000000))) := by
  show axisRun (1/60 : ℝ) 0 1 0 (4 + 1) = _
  rw [axisRun_succ]
  rw [c3axis4]
  rw [axisForm_eval]
  norm_num [Prod.mk.injEq]

lemma c3axis6 : axisRun (1/60 : ℝ) 0 1 0 6 = ((2632403615821/11390625000000), (-(456039393101/2847656250000))) := by
  show axisRun (1/60 : ℝ) 0 1 0 (5 + 1) = _
  rw [axisRun_succ]
  rw [c3axis5]
  rw [axisForm_eval]
  norm_num [Prod.mk.injEq]

lemma c3axis7 : axisRun (1/60 : ℝ) 0 1 0 7 = ((279810042314323/3417187500000000), (-(509911042431977/3417187500000000))) := by
  show axisRun (1/60 : ℝ) 0 1 0 (6 + 1) = _
  rw [axisRun_succ]
  rw [c3axis6]
  rw [axisForm_eval]
  norm_num [Prod.mk.injEq]

lemma c3axis8 : axisRun (1/60 : ℝ) 0 1 0 8 = ((-(25420536922600363/512578125000000000)), (-(67392043269748813/512578125000000000))) := by
  show axisRun (1/60 : ℝ) 0 1 0 (7 + 1) = _
  rw [axisRun_succ]
  rw [c3axis7]
  rw [axisForm_eval]
  norm_num [Prod.mk.injEq]

lemma c3axis9 : axisRun (1/60 : ℝ) 0 1 0 9 = ((-(6094745745720462511/38443359375000000000)), (-(2094102738262717643/19221679687500000000))) := by
  show axisRun (1/60 : ℝ) 0 1 0 (8 + 1) = _
  rw [axisRun_succ]
  rw [c3axis8]
  rw [axisForm_eval]
  norm_num [Prod.mk.injEq]
/-- C3 amended: for a single particle in Form mode with a static target,
zero shimmer amplitude and zero initial velocity, the distance to the
target never increases from one tick to the next for as long as no
coordinate of the particle has crossed past the corresponding target
coordinate (each per-axis displacement keeps the sign it started with);
after an overshoot the distance may transiently increase. -/
theorem C3_form_distance (δ : ℝ) (ts : ℕ → ℝ) (target p0 : Vec3) (n : ℕ)
    (hδ : 0 ≤ δ)
    (hx : ∀ k ≤ n, 0 ≤
      ((formRun 0 δ ts target (p0, (0, 0, 0)) k).1.1 - target.1) *
        (p0.1 - target.1))
    (hy : ∀ k ≤ n, 0 ≤
      ((formRun 0 δ ts target (p0, (0, 0, 0)) k).1.2.1 - target.2.1) *
        (p0.2.1 - target.2.1))
    (hz : ∀ k ≤ n, 0 ≤
      ((formRun 0 δ ts target (p0, (0, 0, 0)) k).1.2.2 - target.2.2) *
        (p0.2.2 - target.2.2)) :
    ∀ k < n, dist3 (formRun 0 δ ts target (p0, (0, 0, 0)) (k + 1)).1 target ≤
      dist3 (formRun 0 δ ts target (p0, (0, 0, 0)) k).1 target := by
  have hx2 : ∀ k ≤ n, 0 ≤
      ((axisRun δ target.1 p0.1 0 k).1 - target.1) * (p0.1 - target.1) := by
    intro k hk
    have h := hx k hk
    rwa [formRun_axis] at h
  have hy2 : ∀ k ≤ n, 0 ≤
      ((axisRun δ target.2.1 p0.2.1 0 k).1 - target.2.1) * (p0.2.1 - target.2.1) := by
    intro k hk
    have h := hy k hk
    rwa [formRun_axis] at h
  have hz2 : ∀ k ≤ n, 0 ≤
      ((axisRun δ target.2.2 p0.2.2 0 k).1 - target.2.2) * (p0.2.2 - target.2.2) := by
    intro k hk
    have h := hz k hk
    rwa [formRun_axis] at h
  have hax := axisRun_abs_mono δ target.1 p0.1 hδ n hx2
  have hay := axisRun_abs_mono δ target.2.1 p0.2.1 hδ n hy2
  have haz := axisRun_abs_mono δ target.2.2 p0.2.2 hδ n hz2
  intro k hk
  rw [formRun_axis, formRun_axis]
  unfold dist3
  dsimp only
  apply Real.sqrt_le_sqrt
  have px := pow_le_pow_left (abs_nonneg _) (hax k hk) 2
  have py := pow_le_pow_left (abs_nonneg _) (hay k hk) 2
  have pz := pow_le_pow_left (abs_nonneg _) (haz k hk) 2
  rw [sq_abs, sq_abs] at px py pz
  linarith

/-- C3 counterexample: the concrete run with tick length 1/60, target at
the origin, start position (1, 0, 0) and zero initial velocity overshoots
the target at tick 8, and the distance to the target then increases from
tick 8 to tick 9, refuting unconditional monotone decrease. -/
theorem C3_monotone_counterexample :
    (formRun 0 (1/60 : ℝ) (fun _ => 0) (0, 0, 0) ((1, 0, 0), (0, 0, 0)) 0).2 =
      (0, 0, 0) ∧
    dist3 (formRun 0 (1/60 : ℝ) (fun _ => 0) (0, 0, 0)
        ((1, 0, 0), (0, 0, 0)) 9).1 (0, 0, 0) >
      dist3 (formRun 0 (1/60 : ℝ) (fun _ => 0) (0, 0, 0)
        ((1, 0, 0), (0, 0, 0)) 8).1 (0, 0, 0) := by
  constructor
  · rfl
  · rw [formRun_axis, formRun_axis, c3axis8, c3axis9]
    simp only [axisRun_fixed]
    unfold dist3
    dsimp only
    apply Real.sqrt_lt_sqrt
    · positivity
    · norm_num

/-- Witness for C3: on the same concrete run the hypotheses hold through
tick 2 (no overshoot yet), and the theorem yields monotone decrease of the
distance over the first two ticks. -/
theorem C3_form_distance_witness :
    (0 : ℝ) ≤ 1/60 ∧
    (∀ k < 2, dist3 (formRun 0 (1/60 : ℝ) (fun _ => 0) (0, 0, 0)
        ((1, 0, 0), (0, 0, 0)) (k + 1)).1 (0, 0, 0) ≤
      dist3 (formRun 0 (1/60 : ℝ) (fun _ => 0) (0, 0, 0)
        ((1, 0, 0), (0, 0, 0)) k).1 (0, 0, 0)) := by
  refine ⟨by norm_num, ?_⟩
  apply C3_form_distance (1/60 : ℝ) (fun _ => 0) (0, 0, 0) (1, 0, 0) 2 (by norm_num)
  · intro k hk
    rw [formRun_axis]
    dsimp only
    interval_cases k
    · rw [show axisRun (1/60 : ℝ) 0 1 0 0 = (1, 0) from rfl]
      norm_num
    · rw [c3axis1]
      norm_num
    · rw [c3axis2]
      norm_num
  · intro k hk
    rw [formRun_axis]
    dsimp only
    rw [axisRun_fixed]
    norm_num
  · intro k hk
    rw [formRun_axis]
    dsimp only
    rw [axisRun_fixed]
    norm_num
